import Mathlib

/-!
Verification of the coda-mcp-server page tools (src/coda_mcp_server/tools/pages.py)
against the natural-language specification of the repository.

The tools are a thin layer over an HTTP transport. We embed each tool function
as a pure Lean function parameterized by a transport oracle
(`HttpRequest → Except TransportError Json`) and, for the export-status tool,
a download oracle (`String → String`, the body text returned by a GET on a
download link). Each embedded function returns the list of HTTP requests it
issues (in order) together with its result, so that theorems can speak both
about return values and about the requests that go over the wire.

Machine-level Python details that no claim depends on (event-loop scheduling,
aiohttp session lifecycle) are not modelled; the functions are straight-line
sequential code, so explicit request traces capture their observable behavior.
-/

/-- A JSON value as produced by deserializing a response body. -/
inductive Json where
  | null : Json
  | bool (b : Bool) : Json
  | num (n : Int) : Json
  | str (s : String) : Json
  | arr (xs : List Json) : Json
  | obj (fields : List (String × Json)) : Json

/-- Lookup of a key in the field list of a JSON object (Python dict access;
keys in a dict are unique, so first-match lookup is faithful). -/
def lookupField : List (String × Json) → String → Option Json
  | [], _ => none
  | (k2, v) :: rest, k => if k2 = k then some v else lookupField rest k

/-- Python `key in result` / `result.get(key)` on a JSON value: a lookup when
the value is a dict, nothing otherwise. -/
def Json.getKey : Json → String → Option Json
  | .obj fields, k => lookupField fields k
  | _, _ => none

/-- Whether a JSON value is a dict (Python `isinstance(result, dict)`). -/
def Json.isObj : Json → Bool
  | .obj _ => true
  | _ => false

/-- HTTP methods used by the tools (models.Method in the source). -/
inductive Method where
  | GET : Method
  | POST : Method
  | PUT : Method
  | DELETE : Method

/-- A query-parameter value that actually reaches the wire (int or string). -/
inductive ParamValue where
  | int (n : Int) : ParamValue
  | str (s : String) : ParamValue

/-- An HTTP request as observed on the wire: method, path (the API-relative
path for client requests, the absolute link for download fetches), the query
parameters, the serialized JSON body, and whether the bearer credential is
attached. -/
structure HttpRequest where
  method : Method
  path : String
  params : List (String × ParamValue)
  body : Option Json
  authenticated : Bool

/-- A transport error: non-2xx HTTP response carrying status code and body. -/
structure TransportError where
  status : Nat
  body : String

/-- Errors a tool function can surface: a transport error propagated from the
client, or a shape (validation) error from response validation. -/
inductive CodaError where
  | transport (e : TransportError) : CodaError
  | shape (msg : String) : CodaError

/-- Modelled from the spec: `clean_params` from the transport client
(src/coda_mcp_server/client.py is not under src/). Spec 4.1: strip
unset/absent query parameters before constructing the request, so that no
null/None literals reach the wire; set parameters pass through. -/
def clean_params (params : List (String × Option ParamValue)) : List (String × ParamValue) :=
  params.filterMap (fun p => p.2.map (fun v => (p.1, v)))

/-- Modelled from the spec: `CodaClient.request` building the outgoing HTTP
request (src/coda_mcp_server/client.py is not under src/). Spec 4.1: the
client attaches the bearer credential to every request it issues. The
deserialized response is supplied by the transport oracle in each tool
embedding, so this definition only captures the request shape. -/
def CodaClient.request (method : Method) (path : String)
    (params : List (String × ParamValue)) (body : Option Json) : HttpRequest :=
  { method := method, path := path, params := params, body := body, authenticated := true }

/-- The one follow-up fetch in the export workflow: a plain
`aiohttp.ClientSession().get(link)` with no headers, hence unauthenticated. -/
def downloadGet (link : String) : HttpRequest :=
  { method := .GET, path := link, params := [], body := none, authenticated := false }

/-- Truthiness of an optional Python string: `None` and the empty string are
falsy, every other string is truthy. -/
def optStrTruthy : Option String → Bool
  | none => false
  | some s => s ≠ ""

/-- Validation helper: a required string field of a pydantic model. Present
string validates; absent, null or non-string raises a validation error. -/
def getReqStr (j : Json) (k : String) : Except String String :=
  match j.getKey k with
  | some (.str s) => .ok s
  | _ => .error "ValidationError"

/-- Validation helper: an optional string field (type str | None, default
None) of a pydantic model. Absent or null gives none; a string gives some;
any other value raises a validation error. -/
def getOptStr (j : Json) (k : String) : Except String (Option String) :=
  match j.getKey k with
  | none => .ok none
  | some .null => .ok none
  | some (.str s) => .ok (some s)
  | some _ => .error "ValidationError"

/-- Modelled from the spec: the pydantic model PageContentExportStatusResponse
(src/coda_mcp_server/models/exports.py is not under src/). Fields per the tool
docstring in tools/pages.py: id, status (inProgress, complete or failed),
href, download_link (wire key downloadLink, present when complete), content
(filled in locally after the download), error (present when failed). -/
structure PageContentExportStatusResponse where
  id : String
  status : String
  href : String
  download_link : Option String
  content : Option String
  error : Option String

/-- Modelled from the spec: validation of a raw status response into
PageContentExportStatusResponse (models/exports.py is not under src/).
Requires id, status and href as strings, with status one of the three
documented literals; downloadLink, content and error are optional strings. -/
def PageContentExportStatusResponse.model_validate (j : Json) :
    Except String PageContentExportStatusResponse :=
  match j with
  | .obj _ =>
    match getReqStr j "id", getReqStr j "status", getReqStr j "href",
          getOptStr j "downloadLink", getOptStr j "content", getOptStr j "error" with
    | .ok i, .ok st, .ok h, .ok dl, .ok c, .ok e =>
      if st == "inProgress" || st == "complete" || st == "failed" then
        .ok { id := i, status := st, href := h, download_link := dl, content := c, error := e }
      else
        .error "ValidationError"
    | _, _, _, _, _, _ => .error "ValidationError"
  | _ => .error "ValidationError"

/-- Modelled from the spec: BeginPageContentExportRequest (models/exports.py
is not under src/): the requested output format (html or markdown). -/
structure BeginPageContentExportRequest where
  output_format : String

/-- Modelled from the spec: canonical JSON serialization of
BeginPageContentExportRequest (spec 4.1: serialize typed request bodies to
their canonical JSON form; camelCase wire keys as in the rest of the API). -/
def BeginPageContentExportRequest.toJson (r : BeginPageContentExportRequest) : Json :=
  .obj [("outputFormat", .str r.output_format)]

/-- Modelled from the spec: BeginPageContentExportResponse (models/exports.py
is not under src/). Fields per the tool docstring in tools/pages.py: id (the
request id for polling), status (initially inProgress), href. -/
structure BeginPageContentExportResponse where
  id : String
  status : String
  href : String

/-- Modelled from the spec: validation of a raw begin-export response
(models/exports.py is not under src/): id, status and href as strings. -/
def BeginPageContentExportResponse.model_validate (j : Json) :
    Except String BeginPageContentExportResponse :=
  match j with
  | .obj _ =>
    match getReqStr j "id", getReqStr j "status", getReqStr j "href" with
    | .ok i, .ok st, .ok h => .ok { id := i, status := st, href := h }
    | _, _, _ => .error "ValidationError"
  | _ => .error "ValidationError"

/-- An individual content element on a page (models/pages.py
PageContentElement): element id, element type, optional text content. -/
structure PageContentElement where
  id : String
  type : String
  content : Option String

/-- List of content elements on a page (models/pages.py
PageContentElementList): the elements and an optional API link. -/
structure PageContentElementList where
  items : List PageContentElement
  href : Option String

/-- Result of deleting content elements (models/pages.py
DeletePageContentResult): the ids of the deleted elements. -/
structure DeletePageContentResult where
  deleted_element_ids : List String

/-- The request issued by `get_page_content_export_status`
(tools/pages.py line 157). -/
def exportStatusReq (doc_id page_id_or_name request_id : String) : HttpRequest :=
  CodaClient.request .GET
    ("docs/" ++ doc_id ++ "/pages/" ++ page_id_or_name ++ "/export/" ++ request_id) [] none

/-- Embedding of `get_page_content_export_status` (tools/pages.py lines
124-166): issue the status GET, validate the response, and when the validated
status is complete and the download link truthy, perform one unauthenticated
GET on the link and store the fetched text in the content field. Returns the
trace of issued HTTP requests together with the result. -/
def get_page_content_export_status (doc_id page_id_or_name request_id : String)
    (transport : HttpRequest → Except TransportError Json)
    (download : String → String) :
    List HttpRequest × Except CodaError PageContentExportStatusResponse :=
  let req := exportStatusReq doc_id page_id_or_name request_id
  match transport req with
  | .error e => ([req], .error (.transport e))
  | .ok result =>
    match PageContentExportStatusResponse.model_validate result with
    | .error e => ([req], .error (.shape e))
    | .ok response =>
      if response.status == "complete" && optStrTruthy response.download_link then
        let link := response.download_link.getD ""
        ([req, downloadGet link], .ok { response with content := some (download link) })
      else
        ([req], .ok response)

/-- The request issued by `begin_page_content_export`
(tools/pages.py lines 116-120). -/
def beginExportReq (doc_id page_id_or_name : String)
    (export_request : BeginPageContentExportRequest) : HttpRequest :=
  CodaClient.request .POST
    ("docs/" ++ doc_id ++ "/pages/" ++ page_id_or_name ++ "/export") []
    (some export_request.toJson)

/-- Embedding of `begin_page_content_export` (tools/pages.py lines 83-121):
one POST with the serialized export request, then validation of the result. -/
def begin_page_content_export (doc_id page_id_or_name : String)
    (export_request : BeginPageContentExportRequest)
    (transport : HttpRequest → Except TransportError Json) :
    List HttpRequest × Except CodaError BeginPageContentExportResponse :=
  let req := beginExportReq doc_id page_id_or_name export_request
  match transport req with
  | .error e => ([req], .error (.transport e))
  | .ok result =>
    match BeginPageContentExportResponse.model_validate result with
    | .error e => ([req], .error (.shape e))
    | .ok response => ([req], .ok response)

/-- One iteration of the items loop of `list_page_content_elements`
(tools/pages.py lines 228-234): build a PageContentElement from a raw item
with defaults id empty and type unknown. A non-dict item raises
(AttributeError on .get); a non-string id or type, or a content value that is
neither a string nor null, fails pydantic validation of the element. -/
def parseElement (item : Json) : Except String PageContentElement :=
  match item with
  | .obj _ =>
    match (item.getKey "id").getD (.str ""), (item.getKey "type").getD (.str "unknown"),
          item.getKey "content" with
    | .str i, .str t, none => .ok { id := i, type := t, content := none }
    | .str i, .str t, some .null => .ok { id := i, type := t, content := none }
    | .str i, .str t, some (.str c) => .ok { id := i, type := t, content := some c }
    | _, _, _ => .error "ValidationError"
  | _ => .error "AttributeError"

/-- The items loop of `list_page_content_elements` (tools/pages.py lines
228-234): elements accumulate in order; the first raising item aborts. -/
def parseItems : List Json → Except String (List PageContentElement)
  | [] => .ok []
  | item :: rest =>
    match parseElement item with
    | .error e => .error e
    | .ok el =>
      match parseItems rest with
      | .error e => .error e
      | .ok els => .ok (el :: els)

/-- The shape dispatch of `list_page_content_elements` (tools/pages.py lines
223-244). A dict with an items key iterates it (Python iteration of a
non-list: an empty string or empty dict yields no elements, any other string
or dict yields a first element on which .get raises AttributeError, and a
non-iterable raises TypeError). A dict without items but with a content key
yields the single synthesized page-content element. Anything else yields no
elements. -/
def normalizeElements (result : Json) : Except String (List PageContentElement)
  :=
  match result with
  | .obj _ =>
    match result.getKey "items" with
    | some itemsVal =>
      match itemsVal with
      | .arr items => parseItems items
      | .str s => if s = "" then .ok [] else .error "AttributeError"
      | .obj fields => if fields.isEmpty then .ok [] else .error "AttributeError"
      | _ => .error "TypeError"
    | none =>
      match result.getKey "content" with
      | some (.str c) => .ok [{ id := "page-content", type := "html", content := some c }]
      | some .null => .ok [{ id := "page-content", type := "html", content := none }]
      | some _ => .error "ValidationError"
      | none => .ok []
  | _ => .ok []

/-- The href argument of the final PageContentElementList construction
(tools/pages.py line 246): result.get of href when the response is a dict,
None otherwise; the field has type str | None, so a present non-string,
non-null value fails pydantic validation. -/
def parseHref (result : Json) : Except String (Option String) :=
  match result with
  | .obj _ =>
    match result.getKey "href" with
    | none => .ok none
    | some .null => .ok none
    | some (.str s) => .ok (some s)
    | some _ => .error "ValidationError"
  | _ => .ok none

/-- The request issued by `list_page_content_elements`
(tools/pages.py line 219). -/
def contentListReq (doc_id page_id_or_name : String) : HttpRequest :=
  CodaClient.request .GET
    ("docs/" ++ doc_id ++ "/pages/" ++ page_id_or_name ++ "/content") [] none

/-- Embedding of `list_page_content_elements` (tools/pages.py lines 197-246):
one GET, then normalization of the two possible response shapes into a
uniform element list. Element construction happens before the final list
construction, so an element error surfaces before an href error. -/
def list_page_content_elements (doc_id page_id_or_name : String)
    (transport : HttpRequest → Except TransportError Json) :
    List HttpRequest × Except CodaError PageContentElementList :=
  let req := contentListReq doc_id page_id_or_name
  match transport req with
  | .error e => ([req], .error (.transport e))
  | .ok result =>
    match normalizeElements result with
    | .error e => ([req], .error (.shape e))
    | .ok elements =>
      match parseHref result with
      | .error e => ([req], .error (.shape e))
      | .ok h => ([req], .ok { items := elements, href := h })

/-- Serialization of DeletePageContentRequest (models/pages.py lines 212-219):
the element_ids list under the camelCase wire key elementIds. -/
def serializeDeleteRequest (element_ids : List String) : Json :=
  .obj [("elementIds", .arr (element_ids.map .str))]

/-- The request issued by `delete_page_content_elements`
(tools/pages.py lines 272-276). -/
def deleteContentReq (doc_id page_id_or_name : String) (element_ids : List String) :
    HttpRequest :=
  CodaClient.request .DELETE
    ("docs/" ++ doc_id ++ "/pages/" ++ page_id_or_name ++ "/content") []
    (some (serializeDeleteRequest element_ids))

/-- Embedding of `delete_page_content_elements` (tools/pages.py lines
249-278): one DELETE whose response body is discarded; the result echoes the
requested element ids. -/
def delete_page_content_elements (doc_id page_id_or_name : String)
    (element_ids : List String)
    (transport : HttpRequest → Except TransportError Json) :
    List HttpRequest × Except CodaError DeletePageContentResult :=
  let req := deleteContentReq doc_id page_id_or_name element_ids
  match transport req with
  | .error e => ([req], .error (.transport e))
  | .ok _ => ([req], .ok { deleted_element_ids := element_ids })

/-- The query-parameter and request construction of `list_pages`
(tools/pages.py lines 27-38): the params dict holds the optional limit and
pageToken arguments, clean_params strips the unset ones, and the request is a
GET on the pages collection. The subsequent PageList validation (line 39)
consumes the response and does not affect the outgoing request. -/
def list_pages_request (doc_id : String) (limit : Option Int) (page_token : Option String) :
    HttpRequest :=
  let params : List (String × Option ParamValue) :=
    [("limit", limit.map ParamValue.int), ("pageToken", page_token.map ParamValue.str)]
  CodaClient.request .GET ("docs/" ++ doc_id ++ "/pages") (clean_params params) none

/-- C1: when the validated status response has status complete and a
(non-empty) download link present, the returned record's content field equals
the body text fetched from that link, and that fetch is a single separate
unauthenticated GET request to the link, after the single status GET. -/
theorem export_status_complete_inlines_download (doc page rid : String)
    (transport : HttpRequest → Except TransportError Json)
    (download : String → String) (j : Json)
    (resp : PageContentExportStatusResponse) (link : String)
    (htr : transport (exportStatusReq doc page rid) = .ok j)
    (hval : PageContentExportStatusResponse.model_validate j = .ok resp)
    (hst : resp.status = "complete")
    (hdl : resp.download_link = some link)
    (hne : link ≠ "") :
    (get_page_content_export_status doc page rid transport download).2 =
        .ok { resp with content := some (download link) } ∧
    (get_page_content_export_status doc page rid transport download).1 =
        [exportStatusReq doc page rid, downloadGet link] ∧
    (downloadGet link).method = Method.GET ∧
    (downloadGet link).authenticated = false ∧
    (downloadGet link).path = link := by
  simp [get_page_content_export_status, htr, hval, hst, hdl, optStrTruthy, hne, downloadGet]

theorem export_status_complete_inlines_download_witness :
    (get_page_content_export_status "d" "p" "r"
        (fun _ => Except.ok (Json.obj
          [("id", Json.str "r"), ("status", Json.str "complete"),
           ("href", Json.str "h"), ("downloadLink", Json.str "L")]))
        (fun _ => "BODY")).2 =
      .ok { id := "r", status := "complete", href := "h",
            download_link := some "L", content := some "BODY", error := none } ∧
    (get_page_content_export_status "d" "p" "r"
        (fun _ => Except.ok (Json.obj
          [("id", Json.str "r"), ("status", Json.str "complete"),
           ("href", Json.str "h"), ("downloadLink", Json.str "L")]))
        (fun _ => "BODY")).1 =
      [exportStatusReq "d" "p" "r", downloadGet "L"] ∧
    (downloadGet "L").method = Method.GET ∧
    (downloadGet "L").authenticated = false ∧
    (downloadGet "L").path = "L" :=
  export_status_complete_inlines_download "d" "p" "r"
    (fun _ => Except.ok (Json.obj
      [("id", Json.str "r"), ("status", Json.str "complete"),
       ("href", Json.str "h"), ("downloadLink", Json.str "L")]))
    (fun _ => "BODY")
    (Json.obj [("id", Json.str "r"), ("status", Json.str "complete"),
               ("href", Json.str "h"), ("downloadLink", Json.str "L")])
    { id := "r", status := "complete", href := "h",
      download_link := some "L", content := none, error := none } "L"
    rfl rfl rfl rfl (by decide)

/-- C2: when the validated status response has status failed with an error
string, the returned record is the validated response unmodified (so it
exposes that error string verbatim) and no download fetch is attempted: the
only request issued is the single status GET. -/
theorem export_status_failed_no_download (doc page rid : String)
    (transport : HttpRequest → Except TransportError Json)
    (download : String → String) (j : Json)
    (resp : PageContentExportStatusResponse) (emsg : String)
    (htr : transport (exportStatusReq doc page rid) = .ok j)
    (hval : PageContentExportStatusResponse.model_validate j = .ok resp)
    (hst : resp.status = "failed")
    (herr : resp.error = some emsg) :
    (get_page_content_export_status doc page rid transport download).2 = .ok resp ∧
    resp.error = some emsg ∧
    (get_page_content_export_status doc page rid transport download).1 =
        [exportStatusReq doc page rid] := by
  refine ⟨?_, herr, ?_⟩ <;>
    simp [get_page_content_export_status, htr, hval, hst]

theorem export_status_failed_no_download_witness :
    (get_page_content_export_status "d" "p" "r"
        (fun _ => Except.ok (Json.obj
          [("id", Json.str "r"), ("status", Json.str "failed"),
           ("href", Json.str "h"), ("error", Json.str "boom")]))
        (fun _ => "BODY")).2 =
      .ok { id := "r", status := "failed", href := "h",
            download_link := none, content := none, error := some "boom" } ∧
    ({ id := "r", status := "failed", href := "h",
       download_link := none, content := none,
       error := some "boom" } : PageContentExportStatusResponse).error = some "boom" ∧
    (get_page_content_export_status "d" "p" "r"
        (fun _ => Except.ok (Json.obj
          [("id", Json.str "r"), ("status", Json.str "failed"),
           ("href", Json.str "h"), ("error", Json.str "boom")]))
        (fun _ => "BODY")).1 = [exportStatusReq "d" "p" "r"] :=
  export_status_failed_no_download "d" "p" "r"
    (fun _ => Except.ok (Json.obj
      [("id", Json.str "r"), ("status", Json.str "failed"),
       ("href", Json.str "h"), ("error", Json.str "boom")]))
    (fun _ => "BODY")
    (Json.obj [("id", Json.str "r"), ("status", Json.str "failed"),
               ("href", Json.str "h"), ("error", Json.str "boom")])
    { id := "r", status := "failed", href := "h",
      download_link := none, content := none, error := some "boom" } "boom"
    rfl rfl rfl rfl

/-- C10: when the validated status is complete but the download link is
absent or the empty string (both falsy in the source condition), no download
fetch is issued — the single status GET is the only request — and the
returned record is exactly the validated response. -/
theorem export_status_complete_without_link_no_download (doc page rid : String)
    (transport : HttpRequest → Except TransportError Json)
    (download : String → String) (j : Json)
    (resp : PageContentExportStatusResponse)
    (htr : transport (exportStatusReq doc page rid) = .ok j)
    (hval : PageContentExportStatusResponse.model_validate j = .ok resp)
    (hst : resp.status = "complete")
    (hdl : resp.download_link = none ∨ resp.download_link = some "") :
    (get_page_content_export_status doc page rid transport download).2 = .ok resp ∧
    (get_page_content_export_status doc page rid transport download).1 =
        [exportStatusReq doc page rid] := by
  rcases hdl with hdl | hdl <;>
    simp [get_page_content_export_status, htr, hval, hst, hdl, optStrTruthy]

theorem export_status_complete_without_link_no_download_witness :
    (get_page_content_export_status "d" "p" "r"
        (fun _ => Except.ok (Json.obj
          [("id", Json.str "r"), ("status", Json.str "complete"),
           ("href", Json.str "h")]))
        (fun _ => "BODY")).2 =
      .ok { id := "r", status := "complete", href := "h",
            download_link := none, content := none, error := none } ∧
    (get_page_content_export_status "d" "p" "r"
        (fun _ => Except.ok (Json.obj
          [("id", Json.str "r"), ("status", Json.str "complete"),
           ("href", Json.str "h")]))
        (fun _ => "BODY")).1 = [exportStatusReq "d" "p" "r"] :=
  export_status_complete_without_link_no_download "d" "p" "r"
    (fun _ => Except.ok (Json.obj
      [("id", Json.str "r"), ("status", Json.str "complete"),
       ("href", Json.str "h")]))
    (fun _ => "BODY")
    (Json.obj [("id", Json.str "r"), ("status", Json.str "complete"),
               ("href", Json.str "h")])
    { id := "r", status := "complete", href := "h",
      download_link := none, content := none, error := none }
    rfl rfl rfl (Or.inl rfl)

/-- C7: when the transport returns an error for the status request, the
function propagates exactly that error to the caller, and the trace shows a
single request (the status GET) — no retry and no further request. -/
theorem export_status_transport_error_propagates (doc page rid : String)
    (transport : HttpRequest → Except TransportError Json)
    (download : String → String) (e : TransportError)
    (htr : transport (exportStatusReq doc page rid) = .error e) :
    (get_page_content_export_status doc page rid transport download).2 =
        .error (CodaError.transport e) ∧
    (get_page_content_export_status doc page rid transport download).1 =
        [exportStatusReq doc page rid] := by
  simp [get_page_content_export_status, htr]

theorem export_status_transport_error_propagates_witness :
    (get_page_content_export_status "d" "p" "r"
        (fun _ => Except.error { status := 404, body := "not found" })
        (fun _ => "BODY")).2 =
      .error (CodaError.transport { status := 404, body := "not found" }) ∧
    (get_page_content_export_status "d" "p" "r"
        (fun _ => Except.error { status := 404, body := "not found" })
        (fun _ => "BODY")).1 = [exportStatusReq "d" "p" "r"] :=
  export_status_transport_error_propagates "d" "p" "r"
    (fun _ => Except.error { status := 404, body := "not found" })
    (fun _ => "BODY") { status := 404, body := "not found" } rfl

/-- C3: when the response is a dict containing only a content field holding
the exported blob (a string), the returned list contains exactly one
synthesized element with id page-content, type html, and content equal to the
blob, and href is none since the dict has no href field. -/
theorem content_blob_synthesizes_single_element (doc page : String)
    (transport : HttpRequest → Except TransportError Json) (c : String)
    (htr : transport (contentListReq doc page) =
        .ok (Json.obj [("content", Json.str c)])) :
    (list_page_content_elements doc page transport).2 =
      .ok { items := [{ id := "page-content", type := "html", content := some c }],
            href := none } ∧
    (list_page_content_elements doc page transport).1 = [contentListReq doc page] := by
  simp [list_page_content_elements, htr, normalizeElements, parseHref,
        Json.getKey, lookupField]

theorem content_blob_synthesizes_single_element_witness :
    (list_page_content_elements "d" "p"
        (fun _ => Except.ok (Json.obj [("content", Json.str "<p>hi</p>")]))).2 =
      .ok { items := [{ id := "page-content", type := "html", content := some "<p>hi</p>" }],
            href := none } ∧
    (list_page_content_elements "d" "p"
        (fun _ => Except.ok (Json.obj [("content", Json.str "<p>hi</p>")]))).1 =
      [contentListReq "d" "p"] :=
  content_blob_synthesizes_single_element "d" "p"
    (fun _ => Except.ok (Json.obj [("content", Json.str "<p>hi</p>")]))
    "<p>hi</p>" rfl

/-- The shape of a raw item carrying explicit id, type and content strings,
paired with those three strings. -/
def itemShape (it : Json) (s : String × String × String) : Prop :=
  it.getKey "id" = some (Json.str s.1) ∧
  it.getKey "type" = some (Json.str s.2.1) ∧
  it.getKey "content" = some (Json.str s.2.2)

/-- The element built from an item of known shape copies the item's three
fields. -/
theorem parseElement_of_itemShape (it : Json) (s : String × String × String)
    (h : itemShape it s) :
    parseElement it = .ok { id := s.1, type := s.2.1, content := some s.2.2 } := by
  obtain ⟨h1, h2, h3⟩ := h
  cases it with
  | obj fields => simp [parseElement, h1, h2, h3]
  | null => simp [Json.getKey] at h1
  | bool b => simp [Json.getKey] at h1
  | num n => simp [Json.getKey] at h1
  | str s2 => simp [Json.getKey] at h1
  | arr xs => simp [Json.getKey] at h1

/-- The items loop on a list of items of known shapes produces exactly the
corresponding elements, in order. -/
theorem parseItems_forall2 (items : List Json) (specs : List (String × String × String))
    (h : List.Forall₂ itemShape items specs) :
    parseItems items =
      .ok (specs.map (fun s =>
        ({ id := s.1, type := s.2.1, content := some s.2.2 } : PageContentElement))) := by
  induction h with
  | nil => simp [parseItems]
  | cons hd tl ih => simp [parseItems, parseElement_of_itemShape _ _ hd, ih]

/-- C4: when the response is a dict with an items list whose entries carry
string id, type and content fields, the returned element list corresponds to
the items list one-to-one: same length, same order, and each element copies
the fields of the corresponding item. -/
theorem items_list_normalizes_one_to_one (doc page : String)
    (transport : HttpRequest → Except TransportError Json) (j : Json)
    (items : List Json) (specs : List (String × String × String)) (h : Option String)
    (htr : transport (contentListReq doc page) = .ok j)
    (hitems : j.getKey "items" = some (Json.arr items))
    (hshape : List.Forall₂ itemShape items specs)
    (hhref : parseHref j = .ok h) :
    (list_page_content_elements doc page transport).2 =
      .ok { items := specs.map (fun s =>
              ({ id := s.1, type := s.2.1, content := some s.2.2 } : PageContentElement)),
            href := h } ∧
    (specs.map (fun s =>
        ({ id := s.1, type := s.2.1, content := some s.2.2 } : PageContentElement))).length =
      items.length ∧
    (list_page_content_elements doc page transport).1 = [contentListReq doc page] := by
  have hlen := hshape.length_eq
  cases j with
  | obj fields =>
    refine ⟨?_, ?_, ?_⟩
    · simp [list_page_content_elements, htr, normalizeElements, hitems,
            parseItems_forall2 _ _ hshape, hhref]
    · simp [hlen]
    · simp [list_page_content_elements, htr, normalizeElements, hitems,
            parseItems_forall2 _ _ hshape, hhref]
  | null => simp [Json.getKey] at hitems
  | bool b => simp [Json.getKey] at hitems
  | num n => simp [Json.getKey] at hitems
  | str s2 => simp [Json.getKey] at hitems
  | arr xs => simp [Json.getKey] at hitems

theorem items_list_normalizes_one_to_one_witness :
    (list_page_content_elements "d" "p"
        (fun _ => Except.ok (Json.obj
          [("items", Json.arr
             [Json.obj [("id", Json.str "cl-a"), ("type", Json.str "text"),
                        ("content", Json.str "alpha")],
              Json.obj [("id", Json.str "cl-b"), ("type", Json.str "heading"),
                        ("content", Json.str "beta")]]),
           ("href", Json.str "H")]))).2 =
      .ok { items := [{ id := "cl-a", type := "text", content := some "alpha" },
                      { id := "cl-b", type := "heading", content := some "beta" }],
            href := some "H" } ∧
    ([({ id := "cl-a", type := "text", content := some "alpha" } : PageContentElement),
      ({ id := "cl-b", type := "heading", content := some "beta" } : PageContentElement)]).length =
      ([Json.obj [("id", Json.str "cl-a"), ("type", Json.str "text"),
                  ("content", Json.str "alpha")],
        Json.obj [("id", Json.str "cl-b"), ("type", Json.str "heading"),
                  ("content", Json.str "beta")]]).length ∧
    (list_page_content_elements "d" "p"
        (fun _ => Except.ok (Json.obj
          [("items", Json.arr
             [Json.obj [("id", Json.str "cl-a"), ("type", Json.str "text"),
                        ("content", Json.str "alpha")],
              Json.obj [("id", Json.str "cl-b"), ("type", Json.str "heading"),
                        ("content", Json.str "beta")]]),
           ("href", Json.str "H")]))).1 = [contentListReq "d" "p"] :=
  items_list_normalizes_one_to_one "d" "p"
    (fun _ => Except.ok (Json.obj
      [("items", Json.arr
         [Json.obj [("id", Json.str "cl-a"), ("type", Json.str "text"),
                    ("content", Json.str "alpha")],
          Json.obj [("id", Json.str "cl-b"), ("type", Json.str "heading"),
                    ("content", Json.str "beta")]]),
       ("href", Json.str "H")]))
    (Json.obj
      [("items", Json.arr
         [Json.obj [("id", Json.str "cl-a"), ("type", Json.str "text"),
                    ("content", Json.str "alpha")],
          Json.obj [("id", Json.str "cl-b"), ("type", Json.str "heading"),
                    ("content", Json.str "beta")]]),
       ("href", Json.str "H")])
    [Json.obj [("id", Json.str "cl-a"), ("type", Json.str "text"),
               ("content", Json.str "alpha")],
     Json.obj [("id", Json.str "cl-b"), ("type", Json.str "heading"),
               ("content", Json.str "beta")]]
    [("cl-a", "text", "alpha"), ("cl-b", "heading", "beta")]
    (some "H") rfl rfl
    (List.Forall₂.cons (by exact ⟨rfl, rfl, rfl⟩)
      (List.Forall₂.cons (by exact ⟨rfl, rfl, rfl⟩) List.Forall₂.nil))
    rfl

/-- C9: when the response is not a dict, or is a dict with neither an items
key nor a content key (href absent, null or a string), the function raises no
shape error: it returns an empty element list with the dict's href (none when
the response is not a dict). -/
theorem no_items_no_content_yields_empty_list (doc page : String)
    (transport : HttpRequest → Except TransportError Json) (j : Json)
    (h : Option String)
    (htr : transport (contentListReq doc page) = .ok j)
    (hni : j.getKey "items" = none)
    (hnc : j.getKey "content" = none)
    (hhref : parseHref j = .ok h) :
    (list_page_content_elements doc page transport).2 =
      .ok { items := [], href := h } ∧
    (j.isObj = false → h = none) ∧
    (list_page_content_elements doc page transport).1 = [contentListReq doc page] := by
  cases j with
  | obj fields =>
    refine ⟨?_, ?_, ?_⟩
    · simp [list_page_content_elements, htr, normalizeElements, hni, hnc, hhref]
    · simp [Json.isObj]
    · simp [list_page_content_elements, htr, normalizeElements, hni, hnc, hhref]
  | null =>
    simp [parseHref] at hhref
    simp [list_page_content_elements, htr, normalizeElements, parseHref, ← hhref]
  | bool b =>
    simp [parseHref] at hhref
    simp [list_page_content_elements, htr, normalizeElements, parseHref, ← hhref]
  | num n =>
    simp [parseHref] at hhref
    simp [list_page_content_elements, htr, normalizeElements, parseHref, ← hhref]
  | str s =>
    simp [parseHref] at hhref
    simp [list_page_content_elements, htr, normalizeElements, parseHref, ← hhref]
  | arr xs =>
    simp [parseHref] at hhref
    simp [list_page_content_elements, htr, normalizeElements, parseHref, ← hhref]

theorem no_items_no_content_yields_empty_list_witness :
    (list_page_content_elements "d" "p"
        (fun _ => Except.ok (Json.str "plain text body"))).2 =
      .ok { items := [], href := none } ∧
    ((Json.str "plain text body").isObj = false → (none : Option String) = none) ∧
    (list_page_content_elements "d" "p"
        (fun _ => Except.ok (Json.str "plain text body"))).1 =
      [contentListReq "d" "p"] :=
  no_items_no_content_yields_empty_list "d" "p"
    (fun _ => Except.ok (Json.str "plain text body"))
    (Json.str "plain text body") none rfl rfl rfl rfl

/-- C8: when the transport call succeeds, whatever the response body is, the
result echoes the requested element ids verbatim, and the single request
issued is the DELETE on the page content path. -/
theorem delete_elements_echoes_ids (doc page : String) (element_ids : List String)
    (transport : HttpRequest → Except TransportError Json) (j : Json)
    (htr : transport (deleteContentReq doc page element_ids) = .ok j) :
    (delete_page_content_elements doc page element_ids transport).2 =
      .ok { deleted_element_ids := element_ids } ∧
    (delete_page_content_elements doc page element_ids transport).1 =
      [deleteContentReq doc page element_ids] := by
  simp [delete_page_content_elements, htr]

theorem delete_elements_echoes_ids_witness :
    (delete_page_content_elements "d" "p" ["cl-a", "cl-b"]
        (fun _ => Except.ok (Json.obj [("unrelated", Json.num 7)]))).2 =
      .ok { deleted_element_ids := ["cl-a", "cl-b"] } ∧
    (delete_page_content_elements "d" "p" ["cl-a", "cl-b"]
        (fun _ => Except.ok (Json.obj [("unrelated", Json.num 7)]))).1 =
      [deleteContentReq "d" "p" ["cl-a", "cl-b"]] :=
  delete_elements_echoes_ids "d" "p" ["cl-a", "cl-b"]
    (fun _ => Except.ok (Json.obj [("unrelated", Json.num 7)]))
    (Json.obj [("unrelated", Json.num 7)]) rfl

/-- C5: the query parameters of the list_pages request are exactly the set
arguments, unchanged and in order; an unset limit or pageToken contributes no
parameter at all — in particular the key is absent from the outgoing
parameter list. -/
theorem list_pages_request_omits_unset_params (doc : String)
    (limit : Option Int) (page_token : Option String) :
    (list_pages_request doc limit page_token).params =
      (match limit with
       | none => []
       | some n => [("limit", ParamValue.int n)]) ++
      (match page_token with
       | none => []
       | some s => [("pageToken", ParamValue.str s)]) ∧
    "limit" ∉ (list_pages_request doc none page_token).params.map Prod.fst ∧
    "pageToken" ∉ (list_pages_request doc limit none).params.map Prod.fst := by
  cases limit <;> cases page_token <;>
    simp [list_pages_request, clean_params, CodaClient.request]

/-- Whatever the transport answers, begin_page_content_export issues exactly
its one POST request. -/
theorem begin_export_trace (doc page : String)
    (export_request : BeginPageContentExportRequest)
    (transport : HttpRequest → Except TransportError Json) :
    (begin_page_content_export doc page export_request transport).1 =
      [beginExportReq doc page export_request] := by
  cases htr : transport (beginExportReq doc page export_request) with
  | error e => simp [begin_page_content_export, htr]
  | ok j =>
    cases hv : BeginPageContentExportResponse.model_validate j <;>
      simp [begin_page_content_export, htr, hv]

/-- Whatever the transport answers, the first request issued by
get_page_content_export_status is its status GET. -/
theorem export_status_trace_head (doc page rid : String)
    (transport : HttpRequest → Except TransportError Json)
    (download : String → String) :
    ((get_page_content_export_status doc page rid transport download).1).head? =
      some (exportStatusReq doc page rid) := by
  cases htr : transport (exportStatusReq doc page rid) with
  | error e => simp [get_page_content_export_status, htr]
  | ok j =>
    cases hv : PageContentExportStatusResponse.model_validate j with
    | error e => simp [get_page_content_export_status, htr, hv]
    | ok resp =>
      cases hb : (resp.status == "complete" && optStrTruthy resp.download_link) <;>
        simp [get_page_content_export_status, htr, hv, hb]

/-- Whatever the transport answers, list_page_content_elements issues exactly
its one GET request. -/
theorem content_list_trace (doc page : String)
    (transport : HttpRequest → Except TransportError Json) :
    (list_page_content_elements doc page transport).1 = [contentListReq doc page] := by
  cases htr : transport (contentListReq doc page) with
  | error e => simp [list_page_content_elements, htr]
  | ok j =>
    cases hn : normalizeElements j with
    | error e => simp [list_page_content_elements, htr, hn]
    | ok els =>
      cases hh : parseHref j <;> simp [list_page_content_elements, htr, hn, hh]

/-- C6: for every doc id, page id and request id, begin_page_content_export
issues exactly one POST to docs/{doc}/pages/{page}/export,
get_page_content_export_status issues its status request (the first request
of its trace) as a GET to docs/{doc}/pages/{page}/export/{request_id}, and
list_page_content_elements issues exactly one GET to
docs/{doc}/pages/{page}/content. -/
theorem export_and_content_path_templates (doc page rid : String)
    (export_request : BeginPageContentExportRequest)
    (transport : HttpRequest → Except TransportError Json)
    (download : String → String) :
    (begin_page_content_export doc page export_request transport).1 =
      [beginExportReq doc page export_request] ∧
    (beginExportReq doc page export_request).method = Method.POST ∧
    (beginExportReq doc page export_request).path =
      "docs/" ++ doc ++ "/pages/" ++ page ++ "/export" ∧
    ((get_page_content_export_status doc page rid transport download).1).head? =
      some (exportStatusReq doc page rid) ∧
    (exportStatusReq doc page rid).method = Method.GET ∧
    (exportStatusReq doc page rid).path =
      "docs/" ++ doc ++ "/pages/" ++ page ++ "/export/" ++ rid ∧
    (list_page_content_elements doc page transport).1 = [contentListReq doc page] ∧
    (contentListReq doc page).method = Method.GET ∧
    (contentListReq doc page).path =
      "docs/" ++ doc ++ "/pages/" ++ page ++ "/content" :=
  ⟨begin_export_trace doc page export_request transport, rfl, rfl,
   export_status_trace_head doc page rid transport download, rfl, rfl,
   content_list_trace doc page transport, rfl, rfl⟩

/-- C9 counterexample: a dict with neither an items key nor a content key is
not always returned as an empty element list — when its href field holds a
non-string, non-null value (here the number 123), the final
PageContentElementList construction fails validation of the str-or-None href
field, so the function surfaces a shape error instead of a record. -/
theorem no_items_no_content_href_nonstring_shape_error :
    (list_page_content_elements "d" "p"
        (fun _ => Except.ok (Json.obj [("href", Json.num 123)]))).2 =
      .error (CodaError.shape "ValidationError") := by
  simp [list_page_content_elements, normalizeElements, parseHref,
        Json.getKey, lookupField]
